import Mathlib

/-!
Shallow embedding of the algorithmic core of `backend/app/routers/ai_processing.py`:
the text chunker, the quiz output validator and provider cascade, the flashcard
card scheduler, the daily analytics aggregator, the study-streak calculator, the
review-recording endpoint and the artifact cache gate of the generation endpoints.

Python strings are modelled as `List Char` (Python indexing/slicing is by code
point, matching list positions).  Machine integers of the source are unbounded
Python ints, so `Nat`/`Int` model them exactly; the float `time_taken` is
modelled as an exact rational (`Rat`), which is faithful for every property
stated here (no property depends on floating-point rounding).  HTTP calls to
the Supabase store and to the model providers are modelled by explicit outcome
parameters (an environment record per operation); an exception raised by the
Python code is modelled by `Except`/an error constructor.
-/

/-- Python `str.strip()` whitespace test, restricted to the ASCII whitespace
characters (space, tab, LF, CR, VT, FF).  The source never feeds the chunker
the non-ASCII Unicode space characters Python would additionally strip, and
every concrete input used below is ASCII. -/
def isPySpace (c : Char) : Bool :=
  c = ' ' || c = '\t' || c = '\n' || c = '\r' || c = '\x0B' || c = '\x0C'

/-- Python `s.strip()`: remove leading and trailing whitespace. -/
def pyStrip (l : List Char) : List Char :=
  ((l.dropWhile isPySpace).reverse.dropWhile isPySpace).reverse

/-- Whether `sub` occurs in `t` starting at position `i` (`t[i:i+len(sub)] == sub`). -/
def matchAt (t sub : List Char) (i : Nat) : Bool :=
  ((t.drop i).take sub.length) == sub

/-- Python `t.rfind(sub, a, b)` for non-empty `sub` and `b ≤ len(t)` (the only
way the source calls it): the greatest `i` with `a ≤ i`, `i + len(sub) ≤ b` and
a match at `i`; `none` models Python's `-1`. -/
def pyRfind (t sub : List Char) (a b : Nat) : Option Nat :=
  ((List.range (b + 1)).filter
    (fun i => decide (a ≤ i) && decide (i + sub.length ≤ b) && matchAt t sub i)).getLast?

/-- `sentence_endings` list of `chunk_text` (lines 44). -/
def sentence_endings : List (List Char) :=
  [". ".data, "! ".data, "? ".data, "\n\n".data, "\n".data, ".".data, "!".data, "?".data]

/-- `paragraph_breaks` list of `chunk_text` (line 59). -/
def paragraph_breaks : List (List Char) :=
  ["\n\n".data, "\n".data]

/-- Break position chosen from a sentence-ending match at `i` (lines 50-54):
for punctuation followed by a space the space is included, otherwise one
character past the match start. -/
def sentence_break_pos (sub : List Char) (i : Nat) : Nat :=
  if sub.getLast? = some ' ' then i + sub.length else i + 1

/-- The `for ending in sentence_endings` loop of `chunk_text` (lines 47-55):
first ending whose last occurrence in `t[ss:e]` starts strictly after `start`
wins; otherwise try the next ending. -/
def find_sentence_break (t : List Char) (start ss e : Nat) : List (List Char) → Option Nat
  | [] => none
  | sub :: rest =>
    match pyRfind t sub ss e with
    | some i =>
        if start < i then some (sentence_break_pos sub i)
        else find_sentence_break t start ss e rest
    | none => find_sentence_break t start ss e rest

/-- The `for break_char in paragraph_breaks` loop of `chunk_text` (lines 60-64). -/
def find_paragraph_break (t : List Char) (start ss e : Nat) : List (List Char) → Option Nat
  | [] => none
  | sub :: rest =>
    match pyRfind t sub ss e with
    | some i =>
        if start < i then some (i + sub.length)
        else find_paragraph_break t start ss e rest
    | none => find_paragraph_break t start ss e rest

/-- One iteration of the cut-point selection of `chunk_text` (lines 38-66):
`end = start + max_chars`; if that is not past the end of the text, search the
trailing 300-character window for a sentence ending, and (only if that left
`best_break == end`) for a paragraph break. -/
def next_cut (t : List Char) (maxChars start : Nat) : Nat :=
  let e := start + maxChars
  if e < t.length then
    let ss := max start (e - 300)
    let b1 := (find_sentence_break t start ss e sentence_endings).getD e
    if b1 = e then (find_paragraph_break t start ss e paragraph_breaks).getD e else b1
  else e

/-- The `while start < len(text)` loop of `chunk_text` (lines 37-72), with an
explicit fuel argument standing for the loop's (potential) divergence: each
iteration emits `text[start:end].strip()` when non-empty and continues from the
cut.  `chunk_loop_fuel_stable` below shows the fuel used by `chunk_text` is
irrelevant whenever `max_chars ≥ 1`. -/
def chunk_loop (t : List Char) (maxChars : Nat) : Nat → Nat → List (List Char)
  | 0, _ => []
  | fuel + 1, start =>
    if start < t.length then
      let e := next_cut t maxChars start
      let c := pyStrip ((t.drop start).take (e - start))
      if c = [] then chunk_loop t maxChars fuel e
      else c :: chunk_loop t maxChars fuel e
    else []

/-- `chunk_text` (lines 20-74): a text no longer than `max_chars` is returned
as the single chunk `[text]` (untrimmed, line 32); otherwise the splitting loop
runs from position 0. -/
def chunk_text (t : List Char) (maxChars : Nat) : List (List Char) :=
  if t.length ≤ maxChars then [t]
  else chunk_loop t maxChars t.length 0

/-! ## Quiz output validator and provider cascade -/

/-- One element of the parsed provider output, as far as `validate_quiz_json`
inspects it.  `question = none` models a missing `"question"` key or a
non-string value, `options = none` a missing key or non-list value (a present
list is recorded via the `str()` image of each member, which is all the
validator ever uses of it), `answerIndex = none` a missing key or a value on
which `int()` raises. -/
structure RawQuestion where
  question : Option (List Char)
  options : Option (List (List Char))
  answerIndex : Option Int
deriving DecidableEq

/-- A validated quiz question as built by `validate_quiz_json` (lines 674-678). -/
structure Question where
  question : List Char
  options : List (List Char)
  answerIndex : Int
deriving DecidableEq

/-- The per-element checks of the `for question in quiz_data` loop of
`validate_quiz_json` (lines 650-678).  The outer `Option` is `none` for a
non-dict element (line 651). -/
def validate_question : Option RawQuestion → Option Question
  | none => none
  | some q =>
    match q.question, q.options, q.answerIndex with
    | some qs, some opts, some ai =>
        if (pyStrip qs).length < 10 then none
        else if opts.length < 3 then none
        else if ai < 0 || (opts.length : Int) ≤ ai then none
        else some ⟨pyStrip qs, opts.map pyStrip, ai⟩
    | _, _, _ => none

/-- `validate_quiz_json` (lines 632-690) after parsing: the input `parsed` is
the outcome of the parse/repair steps (direct `json.loads`, or the regex
re-extraction retry), `none` meaning no step produced a JSON list.  Elements
failing a check are skipped individually; the result is kept only when at
least 3 validated questions remain (line 680). -/
def validate_quiz_json (parsed : Option (List (Option RawQuestion))) : Option (List Question) :=
  match parsed with
  | none => none
  | some l =>
    let v := l.filterMap validate_question
    if 3 ≤ v.length then some v else none

/-- Backends of the quiz generation cascade, in the priority order named by the
spec.  A trace of `Tier` values records, in order, which backend functions
actually ran for a request (mirroring the source's log lines: `_generate_quiz_
with_groq_api`, `_generate_quiz_with_local_model`, `_generate_quiz_with_hf_api`,
`_generate_fallback_quiz`). -/
inductive Tier
  | groq
  | localModel
  | hfApi
  | heuristic
deriving DecidableEq

/-- Outcome of the Groq HTTP call inside `_generate_quiz_with_groq_api`:
an exception in the `try` block, a non-200 status, a 200 reply without
`choices`, or a 200 reply whose message content — after `clean_quiz_json` and
parsing — is `parsed`. -/
inductive GroqOutcome
  | exn
  | httpError (code : Nat)
  | noChoices
  | content (parsed : Option (List (Option RawQuestion)))
deriving DecidableEq

/-- `_generate_quiz_with_groq_api` (lines 754-806).  `fallbackQuiz` is the value
`_generate_fallback_quiz(text, question_count)` returns for this request (a
deterministic function of the request, left symbolic here since no claim
depends on its content).  On validation failure, HTTP error or missing choices
the function returns the fallback quiz directly (lines 795-803); an exception
in the `try` block is re-raised as `Exception("Groq API error: ...")`. -/
def generate_quiz_with_groq_api (outcome : GroqOutcome) (fallbackQuiz : List Question) :
    Except Unit (List Question × List Tier) :=
  match outcome with
  | .exn => .error ()
  | .httpError _ => .ok (fallbackQuiz, [.groq, .heuristic])
  | .noChoices => .ok (fallbackQuiz, [.groq, .heuristic])
  | .content parsed =>
      match validate_quiz_json parsed with
      | some v => .ok (v, [.groq])
      | none => .ok (fallbackQuiz, [.groq, .heuristic])

/-- `_generate_quiz_with_local_model` (lines 808-821): no local model is
configured, so it always delegates to `_generate_fallback_quiz`; all its
exception handlers also return the fallback quiz, so it never raises. -/
def generate_quiz_with_local_model (fallbackQuiz : List Question) : List Question × List Tier :=
  (fallbackQuiz, [.localModel, .heuristic])

/-- Environment of one run of the quiz cascade. -/
structure QuizGenEnv where
  groqKeyConfigured : Bool
  groqOutcome : GroqOutcome
  fallbackQuiz : List Question
deriving DecidableEq

/-- `call_model_for_quiz_generation` (lines 720-752): try Groq when a key is
configured; on a raised exception fall through to the local-model tier.  The
Hugging Face tier (`_generate_quiz_with_hf_api`) is reachable only when the
local tier raises, which it cannot (every path of `_generate_quiz_with_local_
model` returns), so it is dead code and does not appear. -/
def call_model_for_quiz_generation (env : QuizGenEnv) : List Question × List Tier :=
  if env.groqKeyConfigured then
    match generate_quiz_with_groq_api env.groqOutcome env.fallbackQuiz with
    | .ok r => r
    | .error _ => generate_quiz_with_local_model env.fallbackQuiz
  else generate_quiz_with_local_model env.fallbackQuiz

/-! ## Card scheduler -/

/-- A review rating.  `record_flashcard_review` rejects any other value with a
400 error before the scheduler runs (line 2829). -/
inductive Rating
  | again
  | good
  | easy
deriving DecidableEq

/-- A per-card scheduling state row (`flashcard_card_states`), as computed by
`update_card_state`.  `dueTime` is in minutes on an absolute axis. -/
structure CardState where
  interval : Nat
  dueTime : Int
  correctStreak : Nat
  easyCount : Nat
  isFinished : Bool
deriving DecidableEq

/-- The state transition of `update_card_state` (lines 2458-2538): interval,
streak and easy-count per rating (lines 2473-2484), `due_time = now + interval`
(line 2487), `is_finished = easy_count >= 3 or correct_streak >= 2` on the new
values (line 2490).  A card with no prior state contributes streak 0 and
easy-count 0 (the `if current_state else 0` defaults). -/
def update_card_state (currentState : Option CardState) (rating : Rating) (now : Int) :
    CardState :=
  let prevStreak : Nat := match currentState with
    | some s => s.correctStreak
    | none => 0
  let prevEasy : Nat := match currentState with
    | some s => s.easyCount
    | none => 0
  let newInterval : Nat := match rating with
    | .again => 1
    | .good => 3
    | .easy => 10
  let newStreak : Nat := match rating with
    | .again => 0
    | .good => prevStreak + 1
    | .easy => prevStreak + 1
  let newEasyCount : Nat := match rating with
    | .again => prevEasy
    | .good => prevEasy
    | .easy => prevEasy + 1
  { interval := newInterval
    dueTime := now + (newInterval : Int)
    correctStreak := newStreak
    easyCount := newEasyCount
    isFinished := decide (3 ≤ newEasyCount) || decide (2 ≤ newStreak) }

/-- A sequence of reviews of one card: each review stores the state computed by
`update_card_state`, which the next review reads back. -/
def record_review_sequence (init : Option CardState) (ratings : List Rating) (now : Int) :
    Option CardState :=
  ratings.foldl (fun st r => some (update_card_state st r now)) init

/-! ## Daily analytics aggregator -/

/-- A `flashcard_daily_analytics` row (fields updated by `update_daily_analytics`). -/
structure DailyAnalytics where
  totalReviewed : Nat
  againCount : Nat
  goodCount : Nat
  easyCount : Nat
  totalFinished : Nat
  totalTimeSpent : Rat
deriving DecidableEq

/-- The counter arithmetic of `update_daily_analytics` (lines 2627-2632):
`total_reviewed + 1`, the one counter matching the rating `+ 1`,
`total_finished + 1` when `card_finished`, `total_time_spent + time_taken`. -/
def update_daily_analytics (analytics : DailyAnalytics) (rating : Rating) (timeTaken : Rat)
    (cardFinished : Bool) : DailyAnalytics :=
  { totalReviewed := analytics.totalReviewed + 1
    againCount := analytics.againCount + (if rating = .again then 1 else 0)
    goodCount := analytics.goodCount + (if rating = .good then 1 else 0)
    easyCount := analytics.easyCount + (if rating = .easy then 1 else 0)
    totalFinished := analytics.totalFinished + (if cardFinished then 1 else 0)
    totalTimeSpent := analytics.totalTimeSpent + timeTaken }

/-- The analytics update as wired by `record_flashcard_review` (lines 2877-2885):
`card_finished` is the post-transition `is_finished` of the updated card state —
the prior state's `is_finished` is not consulted. -/
def review_analytics_step (analytics : DailyAnalytics) (prior : Option CardState)
    (rating : Rating) (timeTaken : Rat) (now : Int) : DailyAnalytics :=
  update_daily_analytics analytics rating timeTaken
    (update_card_state prior rating now).isFinished

/-! ## Study-streak calculator -/

/-- The streak fields of a `user_profiles` row.  `lastStudyDate` is a calendar
day number (an ISO date parsed by `date.fromisoformat`); `none` models both a
missing value and an unparseable one (lines 2721-2727). -/
structure StreakState where
  currentStreak : Nat
  longestStreak : Nat
  lastStudyDate : Option Int
deriving DecidableEq

/-- The streak computation of `update_study_streak` (lines 2729-2744), with
`yesterday = today - 1` day: first study 1, same day unchanged, consecutive
day `+ 1`, any other prior date (gap or anomaly) resets to 1; then
`longest = max(longest, new)` and `last_study_date = today`. -/
def update_study_streak (prior : StreakState) (today : Int) : StreakState :=
  let newStreak : Nat :=
    match prior.lastStudyDate with
    | none => 1
    | some d =>
        if d = today then prior.currentStreak
        else if d = today - 1 then prior.currentStreak + 1
        else 1
  { currentStreak := newStreak
    longestStreak := max prior.longestStreak newStreak
    lastStudyDate := some today }

/-- `update_study_streak` as invoked: the whole body sits in a `try` whose
`except` returns the defaults `{0, 0, None}` (lines 2796-2803), so an internal
error is swallowed and never raised to the caller. -/
def update_study_streak_call (streakError : Bool) (prior : StreakState) (today : Int) :
    StreakState :=
  if streakError then ⟨0, 0, none⟩ else update_study_streak prior today

/-! ## Review-recording endpoint -/

/-- Success/failure of each external call made by `record_flashcard_review`:
the review insert (lines 2848-2863), the card-state upsert inside
`update_card_state` (raises unless the status is 200/201, line 2534), the
analytics PATCH inside `update_daily_analytics` (raises unless 200, line 2658),
and whether anything inside `update_study_streak` errors. -/
structure ReviewEnv where
  insertOk : Bool
  cardUpsertOk : Bool
  analyticsPatchOk : Bool
  streakError : Bool
deriving DecidableEq

/-- Caller-visible outcome of `record_flashcard_review`: a 201 response
carrying the review id and the updated card state, or an HTTP 500 error
(every failure path of the endpoint raises `HTTPException` with status 500). -/
inductive ReviewOutcome
  | created (reviewId : Nat) (cardState : CardState)
  | serverError
deriving DecidableEq

/-- `record_flashcard_review` (lines 2805-2915) for a valid rating and an owned
set: insert the review (500 on failure), run `update_card_state` (an exception
reaches the endpoint's generic handler: 500), run `update_daily_analytics` with
the post-transition `is_finished` (an exception likewise becomes a 500), then
run `update_study_streak` inside its own `try/except` so that a streak failure
is logged and swallowed (lines 2887-2891), and return 201 with the review id
and card state. -/
def record_flashcard_review (env : ReviewEnv) (prior : Option CardState)
    (priorStreak : StreakState) (analytics : DailyAnalytics) (rating : Rating)
    (timeTaken : Rat) (now today : Int) (reviewId : Nat) : ReviewOutcome :=
  if env.insertOk = false then .serverError
  else if env.cardUpsertOk = false then .serverError
  else
    let updatedState := update_card_state prior rating now
    if env.analyticsPatchOk = false then .serverError
    else
      let _newAnalytics :=
        update_daily_analytics analytics rating timeTaken updatedState.isFinished
      let _streak := update_study_streak_call env.streakError priorStreak today
      .created reviewId updatedState

/-! ## Artifact cache gate and generation endpoints -/

/-- A persisted artifact row (a row of `quizzes`/`flashcards`); the table
itself fixes the artifact kind, so the cache key inside one table is
`(file_id, user_id)`. -/
structure ArtifactRow (α : Type) where
  id : Nat
  fileId : Nat
  userId : Nat
  payload : List α
deriving DecidableEq

/-- `get_existing_quiz`/`get_existing_flashcards`: select by `file_id` and
`user_id`, newest first, limit 1.  The store is modelled newest-first, so the
first match is the row the query returns. -/
def get_existing_artifact {α : Type} (rows : List (ArtifactRow α)) (fileId userId : Nat) :
    Option (ArtifactRow α) :=
  rows.find? (fun r => r.fileId == fileId && r.userId == userId)

/-- `save_quiz`/`save_flashcards`: insert a fresh row keyed by the same
`(file_id, user_id)`. -/
def save_artifact {α : Type} (rows : List (ArtifactRow α)) (newId fileId userId : Nat)
    (payload : List α) : List (ArtifactRow α) :=
  ⟨newId, fileId, userId, payload⟩ :: rows

/-- Caller-visible responses of the generation endpoints: 200 with a cached
artifact, 200 with a newly generated one, FastAPI's 422 on an out-of-range
query parameter, 404 missing file, 422 empty text, 502 bad gateway, 500. -/
inductive GenResponse (α : Type)
  | okCached (artifactId : Nat) (payload : List α)
  | okNew (artifactId : Nat) (payload : List α)
  | validationError
  | notFound
  | unprocessable
  | badGateway
  | serverError
deriving DecidableEq

/-- Environment of one generation request: whether the file lookup succeeds,
whether its text is non-empty after stripping, the outcome of the model
cascade for a given requested count (`.error` models a raised exception), and
whether the save succeeds. -/
structure GenEnv (α : Type) where
  fileFound : Bool
  textNonempty : Bool
  genOutcome : Int → Except Unit (List α)
  saveOk : Bool

/-- Instrumented result of one endpoint call: the store afterwards, the
response, whether the cache lookup ran, whether the generation cascade was
invoked, and the count the handler body used (none when FastAPI rejected the
request before the body ran). -/
structure GenCallResult (α : Type) where
  rows : List (ArtifactRow α)
  resp : GenResponse α
  cacheChecked : Bool
  genInvoked : Bool
  usedCount : Option Int
deriving DecidableEq

/-- Body shared by `generate_quiz` (lines 1487-1558) and `generate_flashcards`
(lines 2208-2285): cache lookup first (cached hit returns the stored id with
`cached=true` and generates/persists nothing), then file fetch (404), empty
text (422), the cascade (an exception becomes an HTTP error response), the
`len < 3` floor (502 before anything is persisted), the save (a raise becomes
a 500), and finally the 200 response with `cached=false`. -/
def generation_handler {α : Type} (count : Int) (rows : List (ArtifactRow α))
    (env : GenEnv α) (fileId userId newId : Nat) : GenCallResult α :=
  match get_existing_artifact rows fileId userId with
  | some r => ⟨rows, .okCached r.id r.payload, true, false, some count⟩
  | none =>
    if env.fileFound = false then ⟨rows, .notFound, true, false, some count⟩
    else if env.textNonempty = false then ⟨rows, .unprocessable, true, false, some count⟩
    else
      match env.genOutcome count with
      | .error _ => ⟨rows, .serverError, true, true, some count⟩
      | .ok items =>
        if items.length < 3 then ⟨rows, .badGateway, true, true, some count⟩
        else if env.saveOk = false then ⟨rows, .serverError, true, true, some count⟩
        else ⟨save_artifact rows newId fileId userId items, .okNew newId items, true, true,
              some count⟩

/-- A generation endpoint with a FastAPI count parameter
`Query(dflt, ge=lo, le=hi)`: the framework validates the bounds and applies
the default before the handler body runs; an out-of-range value is rejected
with a validation error without touching the store. -/
def generation_endpoint {α : Type} (lo hi dflt : Int) (rows : List (ArtifactRow α))
    (countParam : Option Int) (env : GenEnv α) (fileId userId newId : Nat) :
    GenCallResult α :=
  match countParam with
  | some n =>
      if n < lo || hi < n then ⟨rows, .validationError, false, false, none⟩
      else generation_handler n rows env fileId userId newId
  | none => generation_handler dflt rows env fileId userId newId

/-- A flashcard as validated/persisted by the flashcard pipeline. -/
structure Flashcard where
  front : List Char
  back : List Char
deriving DecidableEq

/-- `generate_quiz` (line 1469): `question_count: int = Query(4, ge=4, le=20)`. -/
def generate_quiz_endpoint (rows : List (ArtifactRow Question)) (countParam : Option Int)
    (env : GenEnv Question) (fileId userId newId : Nat) : GenCallResult Question :=
  generation_endpoint 4 20 4 rows countParam env fileId userId newId

/-- `generate_flashcards` (line 2187): `count: int = Query(default=10, ge=5, le=30)`. -/
def generate_flashcards_endpoint (rows : List (ArtifactRow Flashcard)) (countParam : Option Int)
    (env : GenEnv Flashcard) (fileId userId newId : Nat) : GenCallResult Flashcard :=
  generation_endpoint 5 30 10 rows countParam env fileId userId newId

/-! ## Claim theorems: card scheduler (C3, C4) -/

/-- C3 counterexample.  The claim asserts the sequence `[again, good, easy]` on
a fresh card ends with `correct streak = 1` and `isFinished = false`; the code
( `update_card_state`, lines 2481-2490: `easy` also increments the streak, and
`is_finished` checks `correct_streak >= 2`) ends with streak `2` and
`isFinished = true`, so the claimed final state is refuted at `now = 0`. -/
theorem C3_counterexample :
    record_review_sequence none [Rating.again, Rating.good, Rating.easy] 0 =
      some { interval := 10, dueTime := 10, correctStreak := 2, easyCount := 1,
             isFinished := true } ∧
    record_review_sequence none [Rating.again, Rating.good, Rating.easy] 0 ≠
      some { interval := 10, dueTime := 10, correctStreak := 1, easyCount := 1,
             isFinished := false } := by
  decide

/-- C3 (amended): applying `[again, good, easy]` to a fresh card yields the
final state `interval = 10`, correct streak `2`, `easyCount = 1` and
`isFinished = true` (with `dueAt = now + 10`). -/
theorem C3_again_good_easy (now : Int) :
    record_review_sequence none [Rating.again, Rating.good, Rating.easy] now =
      some { interval := 10, dueTime := now + 10, correctStreak := 2, easyCount := 1,
             isFinished := true } := by
  simp [record_review_sequence, update_card_state]

/-- C4: the card-scheduler transition table of `update_card_state` — `again`
gives interval 1 and resets the streak, `good` gives interval 3 and increments
the streak, `easy` gives interval 10 and increments both streak and easy count;
`dueAt = now + interval`; `isFinished = (easyCount ≥ 3) ∨ (streak ≥ 2)` on the
post-transition values; a fresh card starts from streak 0 and easy count 0;
and `[good, good]` on a fresh card yields streak 2 and `isFinished = true`. -/
theorem C4_scheduler_transitions (cur : Option CardState) (now : Int) :
    (update_card_state cur Rating.again now).interval = 1 ∧
    (update_card_state cur Rating.again now).correctStreak = 0 ∧
    (update_card_state cur Rating.again now).easyCount = cur.elim 0 CardState.easyCount ∧
    (update_card_state cur Rating.good now).interval = 3 ∧
    (update_card_state cur Rating.good now).correctStreak =
      cur.elim 0 CardState.correctStreak + 1 ∧
    (update_card_state cur Rating.good now).easyCount = cur.elim 0 CardState.easyCount ∧
    (update_card_state cur Rating.easy now).interval = 10 ∧
    (update_card_state cur Rating.easy now).correctStreak =
      cur.elim 0 CardState.correctStreak + 1 ∧
    (update_card_state cur Rating.easy now).easyCount = cur.elim 0 CardState.easyCount + 1 ∧
    (∀ r : Rating, (update_card_state cur r now).dueTime =
      now + ((update_card_state cur r now).interval : Int)) ∧
    (∀ r : Rating, (update_card_state cur r now).isFinished =
      (decide (3 ≤ (update_card_state cur r now).easyCount) ||
       decide (2 ≤ (update_card_state cur r now).correctStreak))) ∧
    record_review_sequence none [Rating.good, Rating.good] now =
      some { interval := 3, dueTime := now + 3, correctStreak := 2, easyCount := 0,
             isFinished := true } := by
  cases cur <;>
    refine ⟨rfl, rfl, rfl, rfl, rfl, rfl, rfl, rfl, rfl, ?_, ?_, ?_⟩ <;>
    first
      | (intro r; cases r <;> rfl)
      | simp [record_review_sequence, update_card_state]

/-! ## Claim theorems: daily analytics (C5) -/

/-- C5 counterexample.  The claim asserts `totalFinished` is incremented iff
the card just became finished (not finished before, finished after).  The code
passes the post-transition `is_finished` alone (line 2878), so reviewing a card
that was already finished increments `totalFinished` again: a card with streak
2 (`isFinished = true`) rated `good` increments the counter from 0 to 1 even
though it did not just become finished. -/
theorem C5_counterexample :
    (⟨3, 0, 2, 0, true⟩ : CardState).isFinished = true ∧
    (review_analytics_step ⟨0, 0, 0, 0, 0, 0⟩ (some ⟨3, 0, 2, 0, true⟩)
        Rating.good 0 0).totalFinished = 1 := by
  decide

/-- C5 (amended): on each review event the analytics update increments
`totalReviewed` by 1, adds `timeTaken` to `totalTimeSpent`, increments exactly
the one counter matching the rating, and increments `totalFinished` if and only
if the card's post-transition `isFinished` is true (regardless of whether the
card was already finished before the review). -/
theorem C5_analytics_update (a : DailyAnalytics) (prior : Option CardState) (r : Rating)
    (t : Rat) (now : Int) :
    (review_analytics_step a prior r t now).totalReviewed = a.totalReviewed + 1 ∧
    (review_analytics_step a prior r t now).totalTimeSpent = a.totalTimeSpent + t ∧
    (review_analytics_step a prior r t now).totalFinished =
      a.totalFinished + (if (update_card_state prior r now).isFinished then 1 else 0) ∧
    (r = Rating.again →
      (review_analytics_step a prior r t now).againCount = a.againCount + 1 ∧
      (review_analytics_step a prior r t now).goodCount = a.goodCount ∧
      (review_analytics_step a prior r t now).easyCount = a.easyCount) ∧
    (r = Rating.good →
      (review_analytics_step a prior r t now).againCount = a.againCount ∧
      (review_analytics_step a prior r t now).goodCount = a.goodCount + 1 ∧
      (review_analytics_step a prior r t now).easyCount = a.easyCount) ∧
    (r = Rating.easy →
      (review_analytics_step a prior r t now).againCount = a.againCount ∧
      (review_analytics_step a prior r t now).goodCount = a.goodCount ∧
      (review_analytics_step a prior r t now).easyCount = a.easyCount + 1) := by
  cases r <;>
    simp [review_analytics_step, update_daily_analytics]

/-- Witness for `C5_analytics_update` at a concrete input. -/
theorem C5_analytics_update_witness :
    (review_analytics_step ⟨0, 0, 0, 0, 0, 0⟩ none Rating.again 1 0).totalReviewed = 1 ∧
    (review_analytics_step ⟨0, 0, 0, 0, 0, 0⟩ none Rating.again 1 0).againCount = 1 := by
  have h := C5_analytics_update ⟨0, 0, 0, 0, 0, 0⟩ none Rating.again 1 0
  exact ⟨h.1, (h.2.2.2.1 rfl).1⟩

/-! ## Claim theorems: study streak (C8) -/

/-- C8: one study-streak update computes streak 1 with no prior date, leaves
the streak unchanged on a same-day repeat, increments it when the prior date
is yesterday, and resets it to 1 for any other prior date; then
`longestStreak = max(longestStreak, currentStreak)` and `lastStudyDate = today`;
the update is idempotent with respect to same-day repeats and preserves
`longestStreak ≥ currentStreak`. -/
theorem C8_streak_update (prior : StreakState) (today : Int) :
    (prior.lastStudyDate = none →
      (update_study_streak prior today).currentStreak = 1) ∧
    (prior.lastStudyDate = some today →
      (update_study_streak prior today).currentStreak = prior.currentStreak) ∧
    (prior.lastStudyDate = some (today - 1) →
      (update_study_streak prior today).currentStreak = prior.currentStreak + 1) ∧
    (∀ d : Int, prior.lastStudyDate = some d → d ≠ today → d ≠ today - 1 →
      (update_study_streak prior today).currentStreak = 1) ∧
    (update_study_streak prior today).longestStreak =
      max prior.longestStreak (update_study_streak prior today).currentStreak ∧
    (update_study_streak prior today).lastStudyDate = some today ∧
    (update_study_streak prior today).currentStreak ≤
      (update_study_streak prior today).longestStreak ∧
    update_study_streak (update_study_streak prior today) today =
      update_study_streak prior today := by
  obtain ⟨cs, ls, last⟩ := prior
  cases last with
  | none =>
      simp [update_study_streak]
  | some d =>
      by_cases hd : d = today
      · simp [update_study_streak, hd] <;> omega
      · by_cases hy : d = today - 1
        · have : ¬ (today - 1 = today) := by omega
          simp [update_study_streak, hy, hd, this] <;> omega
        · simp [update_study_streak, hd, hy] <;> omega

/-- Witness for `C8_streak_update` at a concrete input: prior streak 5 studied
yesterday becomes 6 today. -/
theorem C8_streak_update_witness :
    (update_study_streak ⟨5, 7, some 9⟩ 10).currentStreak = 6 ∧
    (update_study_streak ⟨5, 7, some 9⟩ 10).lastStudyDate = some 10 := by
  have h := C8_streak_update ⟨5, 7, some 9⟩ 10
  exact ⟨h.2.2.1 (by norm_num), h.2.2.2.2.2.1⟩

/-! ## Claim theorems: review-recording side effects (C1) -/

/-- C1 counterexample.  The claim asserts an error in either best-effort side
effect (streak update or daily-analytics update) never fails the review
recording.  In `record_flashcard_review` only the streak update is wrapped
(lines 2888-2891); an exception raised inside `update_daily_analytics` (its
PATCH returning non-200, line 2658) propagates to the endpoint's generic
handler, which turns it into an HTTP 500 — the review and card state are not
returned. -/
theorem C1_counterexample :
    record_flashcard_review ⟨true, true, false, false⟩ none ⟨0, 0, none⟩
        ⟨0, 0, 0, 0, 0, 0⟩ Rating.good 0 0 0 7 = ReviewOutcome.serverError ∧
    ReviewOutcome.serverError ≠
      ReviewOutcome.created 7 (update_card_state none Rating.good 0) := by
  decide

/-- C1 (amended): when the review insert and the card-state upsert succeed, a
failure inside the study-streak update never affects the outcome — the review
id and updated card state are still returned — but a failure of the
daily-analytics update makes the whole review-recording operation fail with a
server error. -/
theorem C1_side_effect_errors (prior : Option CardState) (priorStreak : StreakState)
    (analytics : DailyAnalytics) (r : Rating) (t : Rat) (now today : Int)
    (reviewId : Nat) (aOk sErr : Bool) :
    record_flashcard_review ⟨true, true, aOk, sErr⟩ prior priorStreak analytics
        r t now today reviewId =
      (if aOk then ReviewOutcome.created reviewId (update_card_state prior r now)
       else ReviewOutcome.serverError) := by
  cases aOk <;> cases sErr <;> rfl

/-! ## Cache gate lemmas -/

/-- A freshly saved artifact is what the next lookup with the same key returns. -/
theorem get_existing_artifact_save {α : Type} (rows : List (ArtifactRow α))
    (i fileId userId : Nat) (payload : List α) :
    get_existing_artifact (save_artifact rows i fileId userId payload) fileId userId =
      some ⟨i, fileId, userId, payload⟩ := by
  simp [get_existing_artifact, save_artifact, List.find?_cons]

/-- Inversion: a `cached=false` success of the handler pins down the whole
result — the artifact was persisted under the request key with the fresh id. -/
theorem generation_handler_okNew {α : Type} {count : Int} {rows : List (ArtifactRow α)}
    {env : GenEnv α} {fileId userId newId i : Nat} {qs : List α}
    (h : (generation_handler count rows env fileId userId newId).resp =
      GenResponse.okNew i qs) :
    generation_handler count rows env fileId userId newId =
      ⟨save_artifact rows newId fileId userId qs, .okNew newId qs, true, true, some count⟩ ∧
    i = newId := by
  cases hfind : get_existing_artifact rows fileId userId with
  | some r => simp [generation_handler, hfind] at h
  | none =>
    cases hff : env.fileFound with
    | false => simp [generation_handler, hfind, hff] at h
    | true =>
      cases htx : env.textNonempty with
      | false => simp [generation_handler, hfind, hff, htx] at h
      | true =>
        cases hgen : env.genOutcome count with
        | error e => simp [generation_handler, hfind, hff, htx, hgen] at h
        | ok items =>
          by_cases hlen : items.length < 3
          · simp [generation_handler, hfind, hff, htx, hgen, hlen] at h
          · cases hsv : env.saveOk with
            | false => simp [generation_handler, hfind, hff, htx, hgen, hlen, hsv] at h
            | true =>
              simp [generation_handler, hfind, hff, htx, hgen, hlen, hsv] at h
              obtain ⟨hi, hqs⟩ := h
              subst hi
              subst hqs
              simp [generation_handler, hfind, hff, htx, hgen, hlen, hsv]

/-- Inversion lifted to the endpoint (the count parameter was accepted). -/
theorem generation_endpoint_okNew {α : Type} {lo hi dflt : Int} {countParam : Option Int}
    {rows : List (ArtifactRow α)} {env : GenEnv α} {fileId userId newId i : Nat}
    {qs : List α}
    (h : (generation_endpoint lo hi dflt rows countParam env fileId userId newId).resp =
      GenResponse.okNew i qs) :
    generation_endpoint lo hi dflt rows countParam env fileId userId newId =
      ⟨save_artifact rows newId fileId userId qs, .okNew newId qs, true, true,
       some (countParam.getD dflt)⟩ ∧
    i = newId := by
  cases countParam with
  | none =>
      simp only [generation_endpoint] at h ⊢
      simpa using generation_handler_okNew h
  | some n =>
      cases hc : (decide (n < lo) || decide (hi < n)) with
      | true => simp [generation_endpoint, hc] at h
      | false =>
          have hEq : generation_endpoint lo hi dflt rows (some n) env fileId userId newId =
              generation_handler n rows env fileId userId newId := by
            simp [generation_endpoint, hc]
          rw [hEq] at h
          obtain ⟨h1, h2⟩ := generation_handler_okNew h
          rw [hEq, h1]
          exact ⟨rfl, h2⟩

/-- Used count instrumentation: every branch of the handler records the count
the body ran with. -/
theorem generation_handler_usedCount {α : Type} (count : Int) (rows : List (ArtifactRow α))
    (env : GenEnv α) (fileId userId newId : Nat) :
    (generation_handler count rows env fileId userId newId).usedCount = some count := by
  unfold generation_handler
  repeat' split
  all_goals rfl

/-! ## Claim theorems: artifact cache gate (C9) -/

/-- C9: the cache gate makes generation idempotent per key.  A request whose
key already has an artifact returns that artifact's id as a cached hit, leaves
the store unchanged and never invokes generation; and when a first request
succeeds uncached (`okNew`), a second sequential request for the same key (with
any accepted count parameter and any environment) returns the same artifact id
as a cached hit and leaves the store unchanged. -/
theorem C9_cache_idempotence {α : Type} (lo hi dflt : Int) (rows : List (ArtifactRow α))
    (countParam countParam2 : Option Int) (env env2 : GenEnv α)
    (fileId userId newId newId2 i : Nat) (qs : List α) :
    (∀ r n, get_existing_artifact rows fileId userId = some r → countParam = some n →
      lo ≤ n → n ≤ hi →
      generation_endpoint lo hi dflt rows countParam env fileId userId newId =
        ⟨rows, .okCached r.id r.payload, true, false, some n⟩) ∧
    ((generation_endpoint lo hi dflt rows countParam env fileId userId newId).resp =
        GenResponse.okNew i qs →
      (∀ n, countParam2 = some n → lo ≤ n ∧ n ≤ hi) →
      generation_endpoint lo hi dflt
          (generation_endpoint lo hi dflt rows countParam env fileId userId newId).rows
          countParam2 env2 fileId userId newId2 =
        ⟨(generation_endpoint lo hi dflt rows countParam env fileId userId newId).rows,
         .okCached i qs, true, false, some (countParam2.getD dflt)⟩) := by
  constructor
  · intro r n hfind hcp hlo hhi
    subst hcp
    have h1 : ¬ (n < lo) := by omega
    have h2 : ¬ (hi < n) := by omega
    simp [generation_endpoint, h1, h2, generation_handler, hfind]
  · intro hresp hvalid
    obtain ⟨hfirst, hi⟩ := generation_endpoint_okNew hresp
    subst hi
    rw [hfirst]
    have hcache := get_existing_artifact_save rows i fileId userId qs
    cases hc2 : countParam2 with
    | none =>
        simp [generation_endpoint, generation_handler, hcache]
    | some m =>
        obtain ⟨hlo, hhi⟩ := hvalid m hc2
        have h1 : ¬ (m < lo) := by omega
        have h2 : ¬ (hi < m) := by omega
        simp [generation_endpoint, h1, h2, generation_handler, hcache]

/-- Witness for `C9_cache_idempotence`: a concrete first generation followed by
a second request for the same key returns the first id as a cached hit. -/
theorem C9_cache_idempotence_witness :
    generation_endpoint 4 20 4
        (generation_endpoint 4 20 4 ([] : List (ArtifactRow Unit)) (some 5)
          ⟨true, true, fun _ => Except.ok [(), (), ()], true⟩ 1 2 100).rows
        (some 6) ⟨true, true, fun _ => Except.ok [], true⟩ 1 2 101 =
      ⟨(generation_endpoint 4 20 4 ([] : List (ArtifactRow Unit)) (some 5)
          ⟨true, true, fun _ => Except.ok [(), (), ()], true⟩ 1 2 100).rows,
       .okCached 100 [(), (), ()], true, false, some 6⟩ := by
  have h := (C9_cache_idempotence 4 20 4 ([] : List (ArtifactRow Unit)) (some 5) (some 6)
    ⟨true, true, fun _ => Except.ok [(), (), ()], true⟩
    ⟨true, true, fun _ => Except.ok [], true⟩ 1 2 100 101 100 [(), (), ()]).2
  exact h rfl (by intro n hn; simp at hn; omega)

/-! ## Claim theorems: request validation bounds and the 3-item floor (C10) -/

/-- C10: the quiz endpoint accepts a question count only in 4..20 (default 4)
and the flashcard endpoint a card count only in 5..30 (default 10); an
out-of-range count is rejected with a validation error before the cache lookup
or generation run and the store is untouched; and a generated artifact with
fewer than 3 items is answered with a bad-gateway error and not persisted. -/
theorem C10_endpoint_bounds :
    (∀ rows env fileId userId newId (n : Int), (n < 4 ∨ 20 < n) →
      generate_quiz_endpoint rows (some n) env fileId userId newId =
        ⟨rows, .validationError, false, false, none⟩) ∧
    (∀ rows env fileId userId newId,
      (generate_quiz_endpoint rows none env fileId userId newId).usedCount = some 4) ∧
    (∀ rows env fileId userId newId (n : Int), (n < 5 ∨ 30 < n) →
      generate_flashcards_endpoint rows (some n) env fileId userId newId =
        ⟨rows, .validationError, false, false, none⟩) ∧
    (∀ rows env fileId userId newId,
      (generate_flashcards_endpoint rows none env fileId userId newId).usedCount = some 10) ∧
    (∀ rows env fileId userId newId (n : Int) items, 4 ≤ n → n ≤ 20 →
      get_existing_artifact rows fileId userId = none →
      env.fileFound = true → env.textNonempty = true →
      env.genOutcome n = Except.ok items → items.length < 3 →
      generate_quiz_endpoint rows (some n) env fileId userId newId =
        ⟨rows, .badGateway, true, true, some n⟩) ∧
    (∀ rows env fileId userId newId (n : Int) items, 5 ≤ n → n ≤ 30 →
      get_existing_artifact rows fileId userId = none →
      env.fileFound = true → env.textNonempty = true →
      env.genOutcome n = Except.ok items → items.length < 3 →
      generate_flashcards_endpoint rows (some n) env fileId userId newId =
        ⟨rows, .badGateway, true, true, some n⟩) := by
  refine ⟨?_, ?_, ?_, ?_, ?_, ?_⟩
  · intro rows env fileId userId newId n hn
    rcases hn with hn | hn <;>
      simp [generate_quiz_endpoint, generation_endpoint, hn]
  · intro rows env fileId userId newId
    exact generation_handler_usedCount 4 rows env fileId userId newId
  · intro rows env fileId userId newId n hn
    rcases hn with hn | hn <;>
      simp [generate_flashcards_endpoint, generation_endpoint, hn]
  · intro rows env fileId userId newId
    exact generation_handler_usedCount 10 rows env fileId userId newId
  · intro rows env fileId userId newId n items hlo hhi hfind hff htx hgen hlen
    have h1 : ¬ (n < 4) := by omega
    have h2 : ¬ (20 < n) := by omega
    simp [generate_quiz_endpoint, generation_endpoint, h1, h2, generation_handler,
      hfind, hff, htx, hgen, hlen]
  · intro rows env fileId userId newId n items hlo hhi hfind hff htx hgen hlen
    have h1 : ¬ (n < 5) := by omega
    have h2 : ¬ (30 < n) := by omega
    simp [generate_flashcards_endpoint, generation_endpoint, h1, h2, generation_handler,
      hfind, hff, htx, hgen, hlen]

/-- Witness for `C10_endpoint_bounds`: count 25 is rejected by the quiz
endpoint without touching the store, and a 2-item generation yields a
bad-gateway error without persisting. -/
theorem C10_endpoint_bounds_witness :
    generate_quiz_endpoint [] (some 25)
        ⟨true, true, fun _ => Except.ok [], true⟩ 1 2 100 =
      ⟨[], .validationError, false, false, none⟩ ∧
    generate_flashcards_endpoint [] (some 5)
        ⟨true, true, fun _ => Except.ok [⟨"a".data, "b".data⟩, ⟨"c".data, "d".data⟩], true⟩
        1 2 100 =
      ⟨[], .badGateway, true, true, some 5⟩ := by
  constructor
  · exact C10_endpoint_bounds.1 [] ⟨true, true, fun _ => Except.ok [], true⟩ 1 2 100 25
      (by omega)
  · exact C10_endpoint_bounds.2.2.2.2.2 []
      ⟨true, true, fun _ => Except.ok [⟨"a".data, "b".data⟩, ⟨"c".data, "d".data⟩], true⟩
      1 2 100 5 [⟨"a".data, "b".data⟩, ⟨"c".data, "d".data⟩]
      (by omega) (by omega) rfl rfl rfl rfl (by simp)

/-! ## Validator soundness and cascade behaviour (C2) -/

/-- A question kept by the element validator satisfies the schema: stripped
text of length at least 10, at least 3 options, and an in-range answer index. -/
theorem validate_question_sound {rq : Option RawQuestion} {q : Question}
    (h : validate_question rq = some q) :
    10 ≤ q.question.length ∧ 3 ≤ q.options.length ∧ 0 ≤ q.answerIndex ∧
      q.answerIndex < (q.options.length : Int) := by
  cases rq with
  | none => simp [validate_question] at h
  | some r =>
    obtain ⟨oq, oo, oa⟩ := r
    cases oq with
    | none => simp [validate_question] at h
    | some qs =>
      cases oo with
      | none => simp [validate_question] at h
      | some opts =>
        cases oa with
        | none => simp [validate_question] at h
        | some ai =>
          simp only [validate_question] at h
          split_ifs at h with h1 h2 h3
          all_goals try exact Option.noConfusion h
          obtain rfl := Option.some.inj h
          simp only [List.length_map]
          have h3' : ¬ (ai < 0) ∧ ¬ ((opts.length : Int) ≤ ai) := by
            simpa [not_or] using h3
          exact ⟨by omega, by omega, by omega, by omega⟩

/-- A sample schema-valid raw element, used by the concrete evaluations below. -/
def sampleRawQuestion : Option RawQuestion :=
  some ⟨some "What does the text say?".data,
        some ["A".data, "B".data, "C".data, "D".data], some 1⟩

/-- C2 counterexample.  The claim asserts that when a backend's output fails
the schema check the cascade continues with the next backend in the priority
order (here: the local-model tier after the fast hosted tier).  In the code the
schema-failure branch of `_generate_quiz_with_groq_api` (line 797) calls
`_generate_fallback_quiz` — the terminal deterministic heuristic — directly:
with a Groq reply containing only two valid questions, the executed-backend
trace is `[groq, heuristic]`, not `[groq, localModel, heuristic]`. -/
theorem C2_counterexample :
    (call_model_for_quiz_generation
        ⟨true, GroqOutcome.content (some [sampleRawQuestion, sampleRawQuestion]), []⟩).2 =
      [Tier.groq, Tier.heuristic] ∧
    ([Tier.groq, Tier.heuristic] : List Tier) ≠
      [Tier.groq, Tier.localModel, Tier.heuristic] := by
  decide

/-- C2 (amended): elements of a provider output are validated independently and
invalid elements are dropped individually (the validated list distributes over
concatenation and every kept element is schema-valid); the tier's output is
accepted only when at least 3 valid elements remain after filtering; and when
the fast hosted backend's output fails this schema check the cascade treats it
as a tier failure — the invalid output is never returned — and falls back
directly to the terminal deterministic heuristic (skipping the intermediate
local-model and secondary hosted tiers; the local-model tier itself only
delegates to the same heuristic). -/
theorem C2_validator_cascade (l1 l2 : List (Option RawQuestion))
    (parsed : Option (List (Option RawQuestion))) (fb : List Question) :
    (l1 ++ l2).filterMap validate_question =
      l1.filterMap validate_question ++ l2.filterMap validate_question ∧
    (∀ v, validate_quiz_json (some l1) = some v →
      3 ≤ v.length ∧ v = l1.filterMap validate_question ∧
      ∀ q ∈ v, 10 ≤ q.question.length ∧ 3 ≤ q.options.length ∧
        0 ≤ q.answerIndex ∧ q.answerIndex < (q.options.length : Int)) ∧
    ((l1.filterMap validate_question).length < 3 →
      validate_quiz_json (some l1) = none) ∧
    (validate_quiz_json parsed = none →
      call_model_for_quiz_generation ⟨true, GroqOutcome.content parsed, fb⟩ =
        (fb, [Tier.groq, Tier.heuristic])) := by
  refine ⟨List.filterMap_append l1 l2 validate_question, ?_, ?_, ?_⟩
  · intro v hv
    by_cases h3 : 3 ≤ (l1.filterMap validate_question).length
    · simp only [validate_quiz_json, h3, if_true] at hv
      obtain rfl : _ = v := Option.some.inj hv
      refine ⟨h3, rfl, ?_⟩
      intro q hq
      obtain ⟨rq, _, hrq⟩ := List.mem_filterMap.mp hq
      exact validate_question_sound hrq
    · simp only [validate_quiz_json, h3, if_false] at hv
      exact Option.noConfusion hv
  · intro hlen
    have h3 : ¬ 3 ≤ (l1.filterMap validate_question).length := by omega
    simp [validate_quiz_json, h3]
  · intro hnone
    simp [call_model_for_quiz_generation, generate_quiz_with_groq_api, hnone]

/-- Witness for `C2_validator_cascade` at concrete inputs: a reply with two
valid questions fails the floor and sends the cascade to the heuristic. -/
theorem C2_validator_cascade_witness :
    validate_quiz_json (some [sampleRawQuestion, sampleRawQuestion]) = none ∧
    call_model_for_quiz_generation
        ⟨true, GroqOutcome.content (some [sampleRawQuestion, sampleRawQuestion]), []⟩ =
      ([], [Tier.groq, Tier.heuristic]) := by
  have h := C2_validator_cascade [sampleRawQuestion, sampleRawQuestion] []
    (some [sampleRawQuestion, sampleRawQuestion]) []
  exact ⟨h.2.2.1 (by decide), h.2.2.2 (h.2.2.1 (by decide))⟩

/-! ## Chunker lemmas (C6, C7) -/

/-- A position produced by `pyRfind` lies in the requested window. -/
theorem pyRfind_bounds {t sub : List Char} {a b i : Nat} (h : pyRfind t sub a b = some i) :
    a ≤ i ∧ i + sub.length ≤ b := by
  unfold pyRfind at h
  have hmem := List.mem_of_getLast?_eq_some h
  rw [List.mem_filter] at hmem
  obtain ⟨-, hpred⟩ := hmem
  simp only [Bool.and_eq_true, decide_eq_true_eq] at hpred
  exact ⟨hpred.1.1, hpred.1.2⟩

/-- A sentence break chosen by the ending loop lies strictly after `start` and
within the window end. -/
theorem find_sentence_break_bounds {t : List Char} {start ss e p : Nat}
    (endings : List (List Char)) (hne : ∀ sub ∈ endings, sub ≠ [])
    (h : find_sentence_break t start ss e endings = some p) :
    start < p ∧ p ≤ e := by
  induction endings with
  | nil => simp [find_sentence_break] at h
  | cons sub rest ih =>
    have hsub : sub ≠ [] := hne sub (by simp)
    have hrest : ∀ s ∈ rest, s ≠ [] := fun s hs => hne s (by simp [hs])
    cases hr : pyRfind t sub ss e with
    | none =>
        simp only [find_sentence_break, hr] at h
        exact ih hrest h
    | some i =>
        simp only [find_sentence_break, hr] at h
        by_cases hlt : start < i
        · rw [if_pos hlt] at h
          obtain rfl := Option.some.inj h
          obtain ⟨hai, hib⟩ := pyRfind_bounds hr
          have hlen : 1 ≤ sub.length := List.length_pos.mpr hsub
          unfold sentence_break_pos
          split <;> constructor <;> omega
        · rw [if_neg hlt] at h
          exact ih hrest h

/-- A paragraph break chosen by the break loop lies strictly after `start` and
within the window end. -/
theorem find_paragraph_break_bounds {t : List Char} {start ss e p : Nat}
    (breaks : List (List Char)) (hne : ∀ sub ∈ breaks, sub ≠ [])
    (h : find_paragraph_break t start ss e breaks = some p) :
    start < p ∧ p ≤ e := by
  induction breaks with
  | nil => simp [find_paragraph_break] at h
  | cons sub rest ih =>
    have hrest : ∀ s ∈ rest, s ≠ [] := fun s hs => hne s (by simp [hs])
    cases hr : pyRfind t sub ss e with
    | none =>
        simp only [find_paragraph_break, hr] at h
        exact ih hrest h
    | some i =>
        simp only [find_paragraph_break, hr] at h
        by_cases hlt : start < i
        · rw [if_pos hlt] at h
          obtain rfl := Option.some.inj h
          obtain ⟨hai, hib⟩ := pyRfind_bounds hr
          constructor <;> omega
        · rw [if_neg hlt] at h
          exact ih hrest h

/-- The cut point always advances past `start` (for a positive width) and never
exceeds the hard limit `start + maxChars`. -/
theorem next_cut_bounds (t : List Char) (maxChars start : Nat) (h1 : 1 ≤ maxChars) :
    start < next_cut t maxChars start ∧ next_cut t maxChars start ≤ start + maxChars := by
  have hnc : next_cut t maxChars start =
      (if start + maxChars < t.length then
        (if (find_sentence_break t start (max start (start + maxChars - 300))
              (start + maxChars) sentence_endings).getD (start + maxChars) =
            start + maxChars
         then (find_paragraph_break t start (max start (start + maxChars - 300))
              (start + maxChars) paragraph_breaks).getD (start + maxChars)
         else (find_sentence_break t start (max start (start + maxChars - 300))
              (start + maxChars) sentence_endings).getD (start + maxChars))
       else start + maxChars) := rfl
  rw [hnc]
  by_cases he : start + maxChars < t.length
  · rw [if_pos he]
    have hpara : start < (find_paragraph_break t start (max start (start + maxChars - 300))
        (start + maxChars) paragraph_breaks).getD (start + maxChars) ∧
        (find_paragraph_break t start (max start (start + maxChars - 300))
        (start + maxChars) paragraph_breaks).getD (start + maxChars) ≤ start + maxChars := by
      cases hpb : find_paragraph_break t start (max start (start + maxChars - 300))
          (start + maxChars) paragraph_breaks with
      | none => simp only [Option.getD_none]; omega
      | some p =>
          simp only [Option.getD_some]
          exact find_paragraph_break_bounds paragraph_breaks (by decide) hpb
    cases hsb : find_sentence_break t start (max start (start + maxChars - 300))
        (start + maxChars) sentence_endings with
    | none =>
        simp only [Option.getD_none, if_pos rfl]
        exact hpara
    | some p =>
        simp only [Option.getD_some]
        have hb := find_sentence_break_bounds sentence_endings (by decide) hsb
        by_cases hpe : p = start + maxChars
        · rw [if_pos hpe]
          exact hpara
        · rw [if_neg hpe]
          omega
  · rw [if_neg he]
    omega

/-- One-step unfolding of the loop body (the two `let`s zeta-reduced). -/
theorem chunk_loop_succ_eq (t : List Char) (maxChars fuel start : Nat) :
    chunk_loop t maxChars (fuel + 1) start =
      (if start < t.length then
        (if pyStrip ((t.drop start).take (next_cut t maxChars start - start)) = []
         then chunk_loop t maxChars fuel (next_cut t maxChars start)
         else pyStrip ((t.drop start).take (next_cut t maxChars start - start)) ::
           chunk_loop t maxChars fuel (next_cut t maxChars start))
       else []) := rfl

/-- Adding one unit of fuel beyond what the remaining text needs does not
change the loop's output. -/
theorem chunk_loop_succ (t : List Char) (maxChars : Nat) (h1 : 1 ≤ maxChars) :
    ∀ fuel start, t.length - start ≤ fuel →
      chunk_loop t maxChars (fuel + 1) start = chunk_loop t maxChars fuel start := by
  intro fuel
  induction fuel with
  | zero =>
      intro start hs
      have hge : ¬ start < t.length := by omega
      rw [chunk_loop_succ_eq, if_neg hge]
      rfl
  | succ n ih =>
      intro start hs
      by_cases hlt : start < t.length
      · have hprog := (next_cut_bounds t maxChars start h1).1
        have hrec : t.length - next_cut t maxChars start ≤ n := by omega
        rw [chunk_loop_succ_eq t maxChars (n + 1) start, chunk_loop_succ_eq t maxChars n start,
          if_pos hlt, if_pos hlt, ih _ hrec]
      · rw [chunk_loop_succ_eq t maxChars (n + 1) start, chunk_loop_succ_eq t maxChars n start,
          if_neg hlt, if_neg hlt]

/-- Any sufficient fuel computes the same chunks as the canonical fuel
`t.length - start`: the loop terminates and its value does not depend on the
fuel bound. -/
theorem chunk_loop_fuel_stable (t : List Char) (maxChars : Nat) (h1 : 1 ≤ maxChars) :
    ∀ fuel start, t.length - start ≤ fuel →
      chunk_loop t maxChars fuel start = chunk_loop t maxChars (t.length - start) start := by
  intro fuel
  induction fuel with
  | zero =>
      intro start hs
      have : t.length - start = 0 := by omega
      rw [this]
  | succ n ih =>
      intro start hs
      by_cases hcase : t.length - start ≤ n
      · rw [chunk_loop_succ t maxChars h1 n start hcase, ih start hcase]
      · have : t.length - start = n + 1 := by omega
        rw [this]

/-- Dropping a whitespace run does not change the non-whitespace content. -/
theorem filter_notSpace_dropWhile (l : List Char) :
    (l.dropWhile isPySpace).filter (fun c => !isPySpace c) =
      l.filter (fun c => !isPySpace c) := by
  induction l with
  | nil => rfl
  | cons a l ih =>
    by_cases ha : isPySpace a
    · rw [List.dropWhile_cons, if_pos ha, ih, List.filter_cons]
      simp [ha]
    · rw [List.dropWhile_cons, if_neg ha]

/-- Stripping preserves the non-whitespace content. -/
theorem pyStrip_filter (l : List Char) :
    (pyStrip l).filter (fun c => !isPySpace c) = l.filter (fun c => !isPySpace c) := by
  unfold pyStrip
  rw [List.filter_reverse, filter_notSpace_dropWhile, List.filter_reverse,
    filter_notSpace_dropWhile, List.reverse_reverse]

/-- A chunk that strips to nothing was pure whitespace. -/
theorem pyStrip_eq_nil_filter {l : List Char} (h : pyStrip l = []) :
    l.filter (fun c => !isPySpace c) = [] := by
  rw [← pyStrip_filter, h, List.filter_nil]

/-- The head that survives a `dropWhile` fails the predicate. -/
theorem dropWhile_head_false {p : Char → Bool} : ∀ (l : List Char) (a : Char),
    (l.dropWhile p).head? = some a → p a = false := by
  intro l
  induction l with
  | nil => intro a h; simp [List.dropWhile_nil] at h
  | cons x xs ih =>
    intro a h
    by_cases hx : p x
    · rw [List.dropWhile_cons, if_pos hx] at h
      exact ih a h
    · rw [List.dropWhile_cons, if_neg hx] at h
      obtain rfl : x = a := by simpa using h
      simpa using hx

/-- A list whose head fails the predicate is unchanged by `dropWhile`. -/
theorem dropWhile_eq_self_of_head {p : Char → Bool} {l : List Char}
    (h : ∀ a, l.head? = some a → p a = false) : l.dropWhile p = l := by
  cases l with
  | nil => rfl
  | cons x xs =>
      rw [List.dropWhile_cons, if_neg]
      simp [h x rfl]

/-- The head of a non-empty stripped list is not whitespace. -/
theorem pyStrip_head_not {l : List Char} {a : Char} (h : (pyStrip l).head? = some a) :
    isPySpace a = false := by
  have hsplit : pyStrip l ++ ((l.dropWhile isPySpace).reverse.takeWhile isPySpace).reverse
      = l.dropWhile isPySpace := by
    have h2 := congrArg List.reverse
      (List.takeWhile_append_dropWhile isPySpace (l.dropWhile isPySpace).reverse)
    rw [List.reverse_append, List.reverse_reverse] at h2
    exact h2
  cases hB : pyStrip l with
  | nil => rw [hB] at h; exact Option.noConfusion h
  | cons b bs =>
    rw [hB] at h hsplit
    have hba : b = a := by simpa using h
    have hhead : (l.dropWhile isPySpace).head? = some b := by
      rw [← hsplit]; rfl
    rw [← hba]
    exact dropWhile_head_false l b hhead

/-- Python's `strip` is idempotent. -/
theorem pyStrip_idem (l : List Char) : pyStrip (pyStrip l) = pyStrip l := by
  have h1 : (pyStrip l).dropWhile isPySpace = pyStrip l :=
    dropWhile_eq_self_of_head (fun a ha => pyStrip_head_not ha)
  show (((pyStrip l).dropWhile isPySpace).reverse.dropWhile isPySpace).reverse = pyStrip l
  rw [h1]
  have h2 : (pyStrip l).reverse = (l.dropWhile isPySpace).reverse.dropWhile isPySpace := by
    simp [pyStrip]
  rw [h2, List.dropWhile_idempotent]
  simp [pyStrip]

/-- The non-whitespace content of the loop's chunks is exactly the
non-whitespace content of the remaining text. -/
theorem chunk_loop_join (t : List Char) (maxChars : Nat) (h1 : 1 ≤ maxChars) :
    ∀ fuel start, t.length - start ≤ fuel →
      ((chunk_loop t maxChars fuel start).flatten).filter (fun c => !isPySpace c) =
        (t.drop start).filter (fun c => !isPySpace c) := by
  intro fuel
  induction fuel with
  | zero =>
      intro start hs
      have hd : t.drop start = [] := List.drop_eq_nil_of_le (by omega)
      simp [chunk_loop, hd]
  | succ n ih =>
      intro start hs
      by_cases hlt : start < t.length
      · have hb := next_cut_bounds t maxChars start h1
        have hsplit : (t.drop start).take (next_cut t maxChars start - start) ++
            t.drop (next_cut t maxChars start) = t.drop start := by
          have h3 := List.take_append_drop (next_cut t maxChars start - start) (t.drop start)
          rw [List.drop_drop] at h3
          have heq : start + (next_cut t maxChars start - start) = next_cut t maxChars start := by
            omega
          rw [heq] at h3
          exact h3
        rw [chunk_loop_succ_eq, if_pos hlt]
        by_cases hc : pyStrip ((t.drop start).take (next_cut t maxChars start - start)) = []
        · rw [if_pos hc, ih _ (by omega), ← hsplit, List.filter_append,
            pyStrip_eq_nil_filter hc, List.nil_append]
        · rw [if_neg hc, List.flatten_cons, List.filter_append, ih _ (by omega),
            pyStrip_filter]
          conv_rhs => rw [← hsplit]
          rw [List.filter_append]
      · have hd : t.drop start = [] := List.drop_eq_nil_of_le (by omega)
        rw [chunk_loop_succ_eq, if_neg hlt, hd]
        rfl

/-- Every chunk the loop emits is non-empty and already stripped (hence stays
non-empty under a further strip). -/
theorem chunk_loop_mem (t : List Char) (maxChars : Nat) :
    ∀ fuel start c, c ∈ chunk_loop t maxChars fuel start → c ≠ [] ∧ pyStrip c = c := by
  intro fuel
  induction fuel with
  | zero => intro start c hc; simp [chunk_loop] at hc
  | succ n ih =>
      intro start c hc
      by_cases hlt : start < t.length
      · rw [chunk_loop_succ_eq, if_pos hlt] at hc
        by_cases hstrip : pyStrip ((t.drop start).take (next_cut t maxChars start - start)) = []
        · rw [if_pos hstrip] at hc
          exact ih _ c hc
        · rw [if_neg hstrip] at hc
          rcases List.mem_cons.mp hc with rfl | hmem
          · exact ⟨hstrip, pyStrip_idem _⟩
          · exact ih _ c hmem
      · rw [chunk_loop_succ_eq, if_neg hlt] at hc
        simp at hc

/-! ## Claim theorems: chunker (C6, C7) -/

/-- C7: the chunker makes progress on every iteration — for any text and any
`max_chars ≥ 1` the chosen cut point is strictly greater than the current start
(and never beyond the hard limit `start + max_chars`); when no sentence or
paragraph boundary is found in the window the cut degrades to the fixed-width
`start + max_chars`; consequently the loop terminates: any fuel at least the
remaining length computes the same (defined) result. -/
theorem C7_chunker_progress (t : List Char) (maxChars start : Nat) (h1 : 1 ≤ maxChars) :
    (start < next_cut t maxChars start ∧ next_cut t maxChars start ≤ start + maxChars) ∧
    (find_sentence_break t start (max start (start + maxChars - 300)) (start + maxChars)
        sentence_endings = none →
      find_paragraph_break t start (max start (start + maxChars - 300)) (start + maxChars)
        paragraph_breaks = none →
      next_cut t maxChars start = start + maxChars) ∧
    (∀ fuel, t.length - start ≤ fuel →
      chunk_loop t maxChars fuel start = chunk_loop t maxChars (t.length - start) start) := by
  refine ⟨next_cut_bounds t maxChars start h1, ?_,
    fun fuel hf => chunk_loop_fuel_stable t maxChars h1 fuel start hf⟩
  intro hsb hpb
  have hnc : next_cut t maxChars start =
      (if start + maxChars < t.length then
        (if (find_sentence_break t start (max start (start + maxChars - 300))
              (start + maxChars) sentence_endings).getD (start + maxChars) =
            start + maxChars
         then (find_paragraph_break t start (max start (start + maxChars - 300))
              (start + maxChars) paragraph_breaks).getD (start + maxChars)
         else (find_sentence_break t start (max start (start + maxChars - 300))
              (start + maxChars) sentence_endings).getD (start + maxChars))
       else start + maxChars) := rfl
  rw [hnc]
  by_cases he : start + maxChars < t.length
  · rw [if_pos he, hsb, hpb]
    simp
  · rw [if_neg he]

/-- Witness for `C7_chunker_progress` at a concrete input: a 6-character text
with width 2 advances from 0, and extra fuel changes nothing. -/
theorem C7_chunker_progress_witness :
    (0 < next_cut "abcdef".data 2 0 ∧ next_cut "abcdef".data 2 0 ≤ 0 + 2) ∧
    chunk_loop "abcdef".data 2 10 0 =
      chunk_loop "abcdef".data 2 ("abcdef".data.length - 0) 0 := by
  have h := C7_chunker_progress "abcdef".data 2 0 (by norm_num)
  exact ⟨h.1, h.2.2 10 (by decide)⟩

/-- C6 counterexample.  The claim asserts the single-chunk case returns exactly
one chunk equal to the *trimmed* input and that no returned chunk is empty
after trimming.  `chunk_text` returns short inputs untrimmed (line 32): on
`" a"` it returns `[" a"]`, not the trimmed `["a"]`; and on the two-space text
with `max_chars = 1` every window strips to nothing, so the returned sequence
is empty rather than non-empty. -/
theorem C6_counterexample :
    chunk_text " a".data 4000 = [" a".data] ∧
    pyStrip " a".data = "a".data ∧
    ([" a".data] : List (List Char)) ≠ ["a".data] ∧
    chunk_text "  ".data 1 = [] := by
  decide

/-- C6 (amended): for every text and `max_chars ≥ 1`, re-joining the returned
chunks reproduces the original non-whitespace content in order (whitespace
removed by boundary trimming excepted); when the whole text fits within
`max_chars` exactly one chunk is returned and it equals the input as given
(untrimmed); and in the multi-chunk case every returned chunk is non-empty and
already stripped, hence non-empty after trimming (the returned sequence itself
can be empty only for whitespace-only input). -/
theorem C6_chunking (t : List Char) (maxChars : Nat) (h1 : 1 ≤ maxChars) :
    (t.length ≤ maxChars → chunk_text t maxChars = [t]) ∧
    (chunk_text t maxChars).flatten.filter (fun c => !isPySpace c) =
      t.filter (fun c => !isPySpace c) ∧
    (maxChars < t.length → ∀ c ∈ chunk_text t maxChars, c ≠ [] ∧ pyStrip c = c) := by
  refine ⟨?_, ?_, ?_⟩
  · intro hle
    unfold chunk_text
    rw [if_pos hle]
  · by_cases hle : t.length ≤ maxChars
    · unfold chunk_text
      rw [if_pos hle]
      simp
    · have h := chunk_loop_join t maxChars h1 t.length 0 (by omega)
      unfold chunk_text
      rw [if_neg hle]
      simpa using h
  · intro hgt c hc
    unfold chunk_text at hc
    rw [if_neg (by omega)] at hc
    exact chunk_loop_mem t maxChars t.length 0 c hc

/-- Witness for `C6_chunking` at concrete inputs: a short text comes back as
the single untrimmed chunk, and a split text keeps its content. -/
theorem C6_chunking_witness :
    chunk_text "abc".data 5 = ["abc".data] ∧
    (chunk_text "ab. cd".data 4).flatten.filter (fun c => !isPySpace c) =
      "ab. cd".data.filter (fun c => !isPySpace c) := by
  have ha := C6_chunking "abc".data 5 (by norm_num)
  have hb := C6_chunking "ab. cd".data 4 (by norm_num)
  exact ⟨ha.1 (by decide), hb.2.1⟩
